import Mathlib

/-!
Shallow embedding of `src/google updates/grab_tickers.py` (class `GrabTickers`).

The remote spreadsheet collaborator (gspread) is modelled as an oracle value of
type `Except FetchError (List (List String))`: either the authentication, the
worksheet lookup or the row retrieval raises (carrying the classified error
kind), or `get_all_values` returns the full grid of cell strings.

Pandas semantics used by the source, embedded faithfully:
- `pd.DataFrame(all_values[1:], columns=all_values[0])` pads rows shorter than
  the header list with missing values (NaN) and raises a ValueError when some
  row is longer than the header list;
- `df[h]` raises KeyError when `h` is not among the column labels, returns the
  column as a Series when `h` occurs exactly once, and returns a DataFrame
  when `h` occurs more than once (so that the subsequent `.tolist()` raises an
  AttributeError, an uncategorized exception);
- `.dropna()` removes only missing values (NaN): empty strings are kept, since
  gspread returns empty cells as the empty string, not as NaN;
- `.tolist()` lists the remaining values in row order.

Durations (`time.time()` differences) are modelled as rationals.
-/

namespace GrabTickers

/-- Classified error kinds of a single fetch, from the except-clauses of
`grab_tickers` (GSpreadException, credentials FileNotFoundError, KeyError,
generic Exception) together with the spec taxonomy. -/
inductive FetchError where
  | authError
  | notFoundError
  | schemaError
  | remoteError
  | unknownError
deriving DecidableEq, Repr

/-- The value stored in `self.df_less_headers`: header labels plus data rows. -/
structure Frame where
  headers : List String
  rows : List (List String)
deriving DecidableEq, Repr

/-- The mutable fields of a `GrabTickers` instance (set in `__init__` and
mutated by `load_config` and `grab_tickers`). `df_less_headers` starts absent:
it is first created by an assignment inside `grab_tickers`. -/
structure GrabState where
  worksheet_name : String
  sheet_name : String
  refresh_rate : Int
  rate_limit : Int
  credentials_path : String
  ticker_header : String
  tickers : List String
  df_less_headers : Option Frame
deriving DecidableEq, Repr

/-- `df[h]` as a Series, one cell per data row: `r[i]` when the row is long
enough, otherwise the NaN padding introduced by the DataFrame constructor. -/
def seriesCells (i : Nat) (rows : List (List String)) : List (Option String) :=
  rows.map (fun r => r.get? i)

/-- `.dropna().tolist()`: drop only the missing (NaN) cells, keep every string
value (including the empty string) in row order. -/
def dropnaTolist (cells : List (Option String)) : List String :=
  cells.filterMap id

/-- `GrabTickers.grab_tickers`, with the remote interaction abstracted into the
`remote` oracle. Returns the state of the instance after the call together
with `some e` when the call raises the classified error `e` (the caller sees
the exception after the partial mutations performed so far), or `none` on
success. -/
def grab_tickers (st : GrabState) (remote : Except FetchError (List (List String))) :
    GrabState × Option FetchError :=
  match remote with
  | Except.error e => (st, some e)
  | Except.ok allValues =>
    match allValues with
    | [] =>
      -- all_values[0] raises IndexError, caught by the generic except-clause
      (st, some FetchError.unknownError)
    | headers :: rows =>
      if rows.any (fun r => headers.length < r.length) then
        -- pd.DataFrame raises ValueError before any field is assigned
        (st, some FetchError.unknownError)
      else
        let st1 : GrabState :=
          { st with df_less_headers := some { headers := headers, rows := rows } }
        if headers.count st.ticker_header = 0 then
          -- df[ticker_header] raises KeyError after df_less_headers is set
          (st1, some FetchError.schemaError)
        else if 1 < headers.count st.ticker_header then
          -- duplicated label: df[h] is a DataFrame, .tolist() raises
          (st1, some FetchError.unknownError)
        else
          ({ st1 with
              tickers :=
                dropnaTolist
                  (seriesCells (headers.findIdx (fun s => s = st.ticker_header)) rows) },
            none)

/-- Observable pacing and diagnostics of one pass through the `while True`
body of `GrabTickers.main`: the sleep actually executed (`none` when control
jumped to the except-clause before reaching `time.sleep`) and whether an error
diagnostic was emitted. -/
structure IterRecord where
  slept : Option ℚ
  errorLogged : Bool
deriving DecidableEq, Repr

/-- One iteration of the `while True` loop in `GrabTickers.main`: call
`grab_tickers`; on success sleep `max(0, refresh_rate - elapsed)`; on any
exception log the error and fall through to the next iteration without
sleeping (the `time.sleep` call sits inside the `try` block). -/
def mainIter (st : GrabState) (remote : Except FetchError (List (List String)))
    (elapsed : ℚ) : GrabState × IterRecord :=
  let res := grab_tickers st remote
  match res.2 with
  | none =>
    (res.1, { slept := some (max 0 ((res.1.refresh_rate : ℚ) - elapsed)), errorLogged := false })
  | some _ =>
    (res.1, { slept := none, errorLogged := true })

/-- The `while True` loop of `GrabTickers.main` driven by a finite script of
simulated iterations (remote outcome and elapsed duration per iteration).
Returns the final state and the per-iteration records. -/
def runLoop (st : GrabState)
    (script : List (Except FetchError (List (List String)) × ℚ)) :
    GrabState × List IterRecord :=
  match script with
  | [] => (st, [])
  | (remote, elapsed) :: rest =>
    let step := mainIter st remote elapsed
    let tail := runLoop step.1 rest
    (tail.1, step.2 :: tail.2)

/-- A parsed YAML config document, restricted to the recognized keys.
`none` means the key is absent from the document (so `config.get` returns the
coded default). -/
structure ConfigFile where
  worksheet_name : Option String
  sheet_name : Option String
  refresh_rate : Option Int
  rate_limit : Option Int
  credentials_path : Option String
  tickers_header_name : Option String
deriving DecidableEq, Repr

/-- The configuration fields as assigned by `load_config` on success. -/
structure LoadedConfig where
  worksheet_name : String
  sheet_name : String
  refresh_rate : Int
  rate_limit : Int
  credentials_path : String
  ticker_header : String
deriving DecidableEq, Repr

/-- The ValueError raised by the validation in `load_config` when required
parameters are missing or empty. -/
inductive ConfigError where
  | configurationError
deriving DecidableEq, Repr

/-- `GrabTickers.load_config` after the YAML document parsed: extract each key
with its coded default, then validate with
`all([worksheet_name, sheet_name, credentials_path, ticker_header])`, where a
string is falsy exactly when it is empty. -/
def load_config (c : ConfigFile) : Except ConfigError LoadedConfig :=
  let w := c.worksheet_name.getD ""
  let s := c.sheet_name.getD ""
  let rr := c.refresh_rate.getD 60
  let rl := c.rate_limit.getD 300
  let cp := c.credentials_path.getD ""
  let th := c.tickers_header_name.getD "tickers"
  if w = "" ∨ s = "" ∨ cp = "" ∨ th = "" then
    Except.error ConfigError.configurationError
  else
    Except.ok { worksheet_name := w, sheet_name := s, refresh_rate := rr,
                rate_limit := rl, credentials_path := cp, ticker_header := th }

/-- A concrete instance state used by the concrete evaluations below, matching
a freshly constructed object after a successful `load_config`. -/
def baseState : GrabState :=
  { worksheet_name := "portfolio", sheet_name := "main", refresh_rate := 60,
    rate_limit := 300, credentials_path := "dev/credentials.json",
    ticker_header := "tickers", tickers := [], df_less_headers := none }

/-- The row set of spec property P2. -/
def p2Rows : List (List String) :=
  [["tickers", "x"], ["AAPL", "1"], ["", "2"], ["MSFT", "3"]]

/-- The instance state of spec property P3: the previous fetch left
TickerSet = [AAPL]. -/
def p3State : GrabState :=
  { baseState with tickers := ["AAPL"] }

/-- A config document that provides the three identifier keys but omits
`tickers_header_name` (and the numeric keys). -/
def c4Config : ConfigFile :=
  { worksheet_name := some "w", sheet_name := some "s", refresh_rate := none,
    rate_limit := none, credentials_path := some "c", tickers_header_name := none }

/-- A config document with all four required keys present and non-empty and
both numeric keys absent. -/
def c8Config : ConfigFile :=
  { worksheet_name := some "sheetA", sheet_name := some "tab1", refresh_rate := none,
    rate_limit := none, credentials_path := some "creds.json",
    tickers_header_name := some "symbols" }

/-- The simulated iteration script of spec property P6: RemoteError, then
AuthError, then a successful fetch. -/
def p6Script : List (Except FetchError (List (List String)) × ℚ) :=
  [(Except.error FetchError.remoteError, 1),
   (Except.error FetchError.authError, 1),
   (Except.ok [["tickers"], ["AAPL"], ["MSFT"]], 1)]

/-- Every call to `grab_tickers` leaves the six configuration fields of the
instance unchanged: only `tickers` and `df_less_headers` are ever assigned. -/
theorem grab_tickers_preserves_settings (st : GrabState)
    (remote : Except FetchError (List (List String))) :
    ((grab_tickers st remote).1).worksheet_name = st.worksheet_name ∧
    ((grab_tickers st remote).1).sheet_name = st.sheet_name ∧
    ((grab_tickers st remote).1).refresh_rate = st.refresh_rate ∧
    ((grab_tickers st remote).1).rate_limit = st.rate_limit ∧
    ((grab_tickers st remote).1).credentials_path = st.credentials_path ∧
    ((grab_tickers st remote).1).ticker_header = st.ticker_header := by
  cases remote with
  | error e => exact ⟨rfl, rfl, rfl, rfl, rfl, rfl⟩
  | ok v =>
    cases v with
    | nil => exact ⟨rfl, rfl, rfl, rfl, rfl, rfl⟩
    | cons headers rows =>
      by_cases h1 : rows.any (fun r => headers.length < r.length) = true <;>
        by_cases h2 : headers.count st.ticker_header = 0 <;>
          by_cases h3 : 1 < headers.count st.ticker_header <;>
            simp [grab_tickers, h1, h2, h3]

/-- A failing call to `grab_tickers` never reaches the assignment of
`self.tickers`: the field keeps its previous value. -/
theorem grab_tickers_failure_keeps_tickers (st : GrabState)
    (remote : Except FetchError (List (List String))) (e : FetchError)
    (h : (grab_tickers st remote).2 = some e) :
    ((grab_tickers st remote).1).tickers = st.tickers := by
  cases remote with
  | error e2 => rfl
  | ok v =>
    cases v with
    | nil => rfl
    | cons headers rows =>
      by_cases h1 : rows.any (fun r => headers.length < r.length) = true <;>
        by_cases h2 : headers.count st.ticker_header = 0 <;>
          by_cases h3 : 1 < headers.count st.ticker_header <;>
            simp [grab_tickers, h1, h2, h3] at h ⊢

/-- Claim C1: on the P2 row set with header "tickers", `grab_tickers`
succeeds but produces the TickerSet [AAPL, "", MSFT], not [AAPL, MSFT]:
`dropna` removes only missing (NaN) cells, and the empty cell arrives from
gspread as the empty string, so it is kept. The header row is excluded and
row order is preserved, but empty cells are not skipped. -/
theorem fetch_p2_rows_keeps_empty_cell :
    (grab_tickers baseState (Except.ok p2Rows)).2 = none ∧
    ((grab_tickers baseState (Except.ok p2Rows)).1).tickers = ["AAPL", "", "MSFT"] ∧
    ((grab_tickers baseState (Except.ok p2Rows)).1).tickers ≠ ["AAPL", "MSFT"] := by
  decide

/-- Claim C2 counterexample: in the iteration with refresh_rate 60 and
elapsed 1 whose fetch fails with RemoteError, the executed sleep is not
max(0, 60 - 1): the `time.sleep` call sits inside the `try` block, so the
except-clause skips it entirely. -/
theorem failure_iteration_sleep_cex :
    ((mainIter baseState (Except.error FetchError.remoteError) 1).2).slept = none ∧
    ((mainIter baseState (Except.error FetchError.remoteError) 1).2).slept ≠
      some (max 0 ((60 : ℚ) - 1)) := by
  constructor
  · rfl
  · simp [mainIter, grab_tickers]

/-- Claim C2 (amended): in every loop iteration in which the fetch fails, the
except-clause logs the error and the loop re-enters the next iteration
immediately, executing no sleep at all; only a successful iteration sleeps
max(0, refresh_rate - elapsed). -/
theorem failure_iteration_retries_immediately (st : GrabState)
    (remote : Except FetchError (List (List String))) (elapsed : ℚ) (e : FetchError)
    (h : (grab_tickers st remote).2 = some e) :
    (mainIter st remote elapsed).2 = { slept := none, errorLogged := true } := by
  simp [mainIter, h]

/-- Witness for the amended claim C2 at a concrete failing iteration. -/
theorem failure_iteration_retries_immediately_witness :
    (mainIter baseState (Except.error FetchError.authError) 5).2 =
      { slept := none, errorLogged := true } :=
  failure_iteration_retries_immediately baseState (Except.error FetchError.authError) 5
    FetchError.authError rfl

/-- Claim C3 counterexample: a fetch that fails with SchemaError (header "x"
row does not contain "tickers") still mutates the instance: the assignment
`self.df_less_headers = pd.DataFrame(...)` runs before the column lookup
raises, so that field no longer equals its value from before the call. -/
theorem fetch_failure_mutates_df_cex :
    (grab_tickers baseState (Except.ok [["x"]])).2 = some FetchError.schemaError ∧
    ((grab_tickers baseState (Except.ok [["x"]])).1).df_less_headers ≠
      baseState.df_less_headers := by
  decide

/-- Claim C3 (amended): on every failing fetch, the `tickers` field and the
six configuration fields keep their values from before the call; only
`df_less_headers` may be reassigned, when the failure occurs after the
DataFrame was built (for example a SchemaError). -/
theorem fetch_failure_preserves_tickers_and_settings (st : GrabState)
    (remote : Except FetchError (List (List String))) (e : FetchError)
    (h : (grab_tickers st remote).2 = some e) :
    ((grab_tickers st remote).1).tickers = st.tickers ∧
    ((grab_tickers st remote).1).worksheet_name = st.worksheet_name ∧
    ((grab_tickers st remote).1).sheet_name = st.sheet_name ∧
    ((grab_tickers st remote).1).refresh_rate = st.refresh_rate ∧
    ((grab_tickers st remote).1).rate_limit = st.rate_limit ∧
    ((grab_tickers st remote).1).credentials_path = st.credentials_path ∧
    ((grab_tickers st remote).1).ticker_header = st.ticker_header :=
  ⟨grab_tickers_failure_keeps_tickers st remote e h,
    (grab_tickers_preserves_settings st remote).1,
    (grab_tickers_preserves_settings st remote).2.1,
    (grab_tickers_preserves_settings st remote).2.2.1,
    (grab_tickers_preserves_settings st remote).2.2.2.1,
    (grab_tickers_preserves_settings st remote).2.2.2.2.1,
    (grab_tickers_preserves_settings st remote).2.2.2.2.2⟩

/-- Witness for the amended claim C3 at a concrete schema-failing fetch. -/
theorem fetch_failure_preserves_tickers_and_settings_witness :
    ((grab_tickers p3State (Except.ok [["x"]])).1).tickers = p3State.tickers ∧
    ((grab_tickers p3State (Except.ok [["x"]])).1).worksheet_name = p3State.worksheet_name ∧
    ((grab_tickers p3State (Except.ok [["x"]])).1).sheet_name = p3State.sheet_name ∧
    ((grab_tickers p3State (Except.ok [["x"]])).1).refresh_rate = p3State.refresh_rate ∧
    ((grab_tickers p3State (Except.ok [["x"]])).1).rate_limit = p3State.rate_limit ∧
    ((grab_tickers p3State (Except.ok [["x"]])).1).credentials_path = p3State.credentials_path ∧
    ((grab_tickers p3State (Except.ok [["x"]])).1).ticker_header = p3State.ticker_header :=
  fetch_failure_preserves_tickers_and_settings p3State (Except.ok [["x"]])
    FetchError.schemaError (by decide)

/-- Claim C10: when the remote source returns zero rows, the access to
all_values[0] raises an IndexError, caught by the generic except-clause as an
uncategorized error; no field is assigned (the whole state, TickerSet
included, is unchanged) and the loop iteration logs an error diagnostic. -/
theorem empty_sheet_fetch_fails (st : GrabState) (elapsed : ℚ) :
    grab_tickers st (Except.ok []) = (st, some FetchError.unknownError) ∧
    ((mainIter st (Except.ok []) elapsed).2).errorLogged = true ∧
    ((grab_tickers st (Except.ok [])).1).tickers = st.tickers :=
  ⟨rfl, rfl, rfl⟩

/-- Claim C4 counterexample: a config that provides worksheet_name,
sheet_name and credentials_path but omits tickers_header_name does NOT make
`load_config` fail: `config.get` substitutes the default "tickers", which
passes the non-emptiness validation, and load succeeds. -/
theorem load_config_missing_header_key_cex :
    load_config c4Config =
      Except.ok { worksheet_name := "w", sheet_name := "s", refresh_rate := 60,
                  rate_limit := 300, credentials_path := "c", ticker_header := "tickers" } := by
  rfl

/-- Claim C4 (amended): `load_config` fails with the ConfigurationError
whenever any of the three keys worksheet_name, sheet_name, credentials_path
is missing; omitting tickers_header_name alone does not make load fail — the
value defaults to "tickers" and, with the other three present and non-empty,
load succeeds (it fails on the header only when the key is present with an
empty value). -/
theorem load_config_requires_three_identifiers :
    (∀ c : ConfigFile,
        c.worksheet_name = none ∨ c.sheet_name = none ∨ c.credentials_path = none →
          load_config c = Except.error ConfigError.configurationError) ∧
    (∀ (w s cp : String) (rr rl : Option Int), w ≠ "" → s ≠ "" → cp ≠ "" →
        load_config
            { worksheet_name := some w, sheet_name := some s, refresh_rate := rr,
              rate_limit := rl, credentials_path := some cp, tickers_header_name := none }
          = Except.ok
              { worksheet_name := w, sheet_name := s, refresh_rate := rr.getD 60,
                rate_limit := rl.getD 300, credentials_path := cp,
                ticker_header := "tickers" }) := by
  constructor
  · intro c h
    rcases h with h | h | h <;> simp [load_config, h]
  · intro w s cp rr rl hw hs hcp
    simp [load_config, hw, hs, hcp]

/-- Witness for the amended claim C4: a config missing worksheet_name fails,
and one missing only tickers_header_name succeeds with the default header. -/
theorem load_config_requires_three_identifiers_witness :
    load_config
        { worksheet_name := none, sheet_name := some "s", refresh_rate := none,
          rate_limit := none, credentials_path := some "c",
          tickers_header_name := some "t" }
      = Except.error ConfigError.configurationError ∧
    load_config
        { worksheet_name := some "w2", sheet_name := some "s2", refresh_rate := some 15,
          rate_limit := some 100, credentials_path := some "c2",
          tickers_header_name := none }
      = Except.ok
          { worksheet_name := "w2", sheet_name := "s2",
            refresh_rate := (some (15 : Int)).getD 60,
            rate_limit := (some (100 : Int)).getD 300, credentials_path := "c2",
            ticker_header := "tickers" } :=
  ⟨load_config_requires_three_identifiers.1 _ (Or.inl rfl),
    load_config_requires_three_identifiers.2 "w2" "s2" "c2" (some 15) (some 100)
      (by decide) (by decide) (by decide)⟩

/-- Claim C5: a fetch over a rectangular grid whose header row does not
contain the configured column name fails with SchemaError and leaves the
`tickers` field exactly as it was before the call. -/
theorem schema_failure_preserves_tickers (st : GrabState)
    (headers : List String) (rows : List (List String))
    (hrect : rows.any (fun r => headers.length < r.length) = false)
    (habs : headers.count st.ticker_header = 0) :
    (grab_tickers st (Except.ok (headers :: rows))).2 = some FetchError.schemaError ∧
    ((grab_tickers st (Except.ok (headers :: rows))).1).tickers = st.tickers := by
  simp [grab_tickers, hrect, habs]

/-- Witness for claim C5: previous TickerSet [AAPL], header row [symbols]
without the configured name "tickers": the fetch fails with SchemaError and
the TickerSet is still [AAPL]. -/
theorem schema_failure_preserves_tickers_witness :
    (grab_tickers p3State (Except.ok [["symbols"], ["X"]])).2 =
      some FetchError.schemaError ∧
    ((grab_tickers p3State (Except.ok [["symbols"], ["X"]])).1).tickers =
      p3State.tickers :=
  schema_failure_preserves_tickers p3State ["symbols"] [["X"]] (by decide) (by decide)

/-- Claim C6: on the simulated outcome script [RemoteError, AuthError,
success] the loop performs all three iterations, emits exactly two error
diagnostics and ends with the TickerSet of the successful third fetch;
in general the loop performs one iteration per scripted outcome, whatever
the outcomes are — no fetch error terminates it. -/
theorem loop_survives_error_sequence :
    ((runLoop baseState p6Script).2).length = 3 ∧
    (((runLoop baseState p6Script).2).filter (fun r => r.errorLogged)).length = 2 ∧
    (runLoop baseState p6Script).1.tickers = ["AAPL", "MSFT"] ∧
    ∀ (st : GrabState) (script : List (Except FetchError (List (List String)) × ℚ)),
      ((runLoop st script).2).length = script.length := by
  refine ⟨by decide, by decide, by decide, ?_⟩
  intro st script
  induction script generalizing st with
  | nil => rfl
  | cons p rest ih =>
    cases p with
    | mk remote elapsed => simp [runLoop, ih]

/-- Claim C7: whenever an iteration of the main loop executes a sleep, the
slept duration is max(0, refresh_rate - elapsed); it is never negative, and
once elapsed is at least refresh_rate the executed sleep is exactly 0. -/
theorem sleep_is_clamped (st : GrabState)
    (remote : Except FetchError (List (List String))) (elapsed d : ℚ)
    (h : ((mainIter st remote elapsed).2).slept = some d) :
    d = max 0 ((st.refresh_rate : ℚ) - elapsed) ∧ 0 ≤ d ∧
      ((st.refresh_rate : ℚ) ≤ elapsed → d = 0) := by
  have hr := (grab_tickers_preserves_settings st remote).2.2.1
  cases herr : (grab_tickers st remote).2 with
  | some e => simp [mainIter, herr] at h
  | none =>
    simp only [mainIter, herr, hr, Option.some.injEq] at h
    subst h
    refine ⟨rfl, le_max_left 0 _, fun hle => ?_⟩
    exact max_eq_left (sub_nonpos.mpr hle)

/-- Witness for claim C7 at a successful fetch with elapsed 61 against
refresh_rate 60: the executed sleep is 0. -/
theorem sleep_is_clamped_witness :
    (0 : ℚ) = max 0 ((baseState.refresh_rate : ℚ) - 61) ∧ (0 : ℚ) ≤ 0 ∧
      ((baseState.refresh_rate : ℚ) ≤ 61 → (0 : ℚ) = 0) :=
  sleep_is_clamped baseState (Except.ok [["tickers"], ["AAPL"]]) 61 0
    (by simp [mainIter, grab_tickers, baseState, seriesCells, dropnaTolist]; norm_num)

/-- Claim C8: when the four required keys hold non-empty values (the header
key possibly absent, in which case its default "tickers" is non-empty),
`load_config` succeeds, and the absent optional keys are default-filled:
refresh_rate 60, rate_limit 300, ticker header "tickers". -/
theorem load_config_fills_defaults (c : ConfigFile) (w s cp : String)
    (hw : c.worksheet_name = some w) (hw2 : w ≠ "")
    (hs : c.sheet_name = some s) (hs2 : s ≠ "")
    (hc : c.credentials_path = some cp) (hc2 : cp ≠ "")
    (ht : c.tickers_header_name.getD "tickers" ≠ "") :
    load_config c = Except.ok
        { worksheet_name := w, sheet_name := s,
          refresh_rate := c.refresh_rate.getD 60,
          rate_limit := c.rate_limit.getD 300,
          credentials_path := cp,
          ticker_header := c.tickers_header_name.getD "tickers" } ∧
    (c.refresh_rate = none → c.refresh_rate.getD 60 = 60) ∧
    (c.rate_limit = none → c.rate_limit.getD 300 = 300) ∧
    (c.tickers_header_name = none → c.tickers_header_name.getD "tickers" = "tickers") := by
  refine ⟨?_, fun hn => by simp [hn], fun hn => by simp [hn], fun hn => by simp [hn]⟩
  simp [load_config, hw, hs, hc, hw2, hs2, hc2, ht]

/-- Witness for claim C8 at a config with all four keys present non-empty and
the numeric keys absent. -/
theorem load_config_fills_defaults_witness :
    load_config c8Config = Except.ok
        { worksheet_name := "sheetA", sheet_name := "tab1",
          refresh_rate := c8Config.refresh_rate.getD 60,
          rate_limit := c8Config.rate_limit.getD 300,
          credentials_path := "creds.json",
          ticker_header := c8Config.tickers_header_name.getD "tickers" } ∧
    (c8Config.refresh_rate = none → c8Config.refresh_rate.getD 60 = 60) ∧
    (c8Config.rate_limit = none → c8Config.rate_limit.getD 300 = 300) ∧
    (c8Config.tickers_header_name = none →
      c8Config.tickers_header_name.getD "tickers" = "tickers") :=
  load_config_fills_defaults c8Config "sheetA" "tab1" "creds.json"
    rfl (by decide) rfl (by decide) rfl (by decide) (by decide)

/-- Claim C9: extraction is a deterministic function of the fetched rows and
the configured header: if a fetch over some grid succeeds, an immediate
second fetch over the same unchanged grid succeeds as well and yields the
same TickerSet. -/
theorem refetch_is_deterministic (st st1 : GrabState) (vals : List (List String))
    (h : grab_tickers st (Except.ok vals) = (st1, none)) :
    (grab_tickers st1 (Except.ok vals)).2 = none ∧
    ((grab_tickers st1 (Except.ok vals)).1).tickers = st1.tickers := by
  cases vals with
  | nil => simp [grab_tickers] at h
  | cons headers rows =>
    by_cases h1 : rows.any (fun r => headers.length < r.length) = true
    · simp [grab_tickers, h1] at h
    · by_cases h2 : headers.count st.ticker_header = 0
      · simp [grab_tickers, h1, h2] at h
      · by_cases h3 : 1 < headers.count st.ticker_header
        · simp [grab_tickers, h1, h2, h3] at h
        · simp [grab_tickers, h1, h2, h3] at h
          subst h
          simp [grab_tickers, h1, h2, h3]

/-- Witness for claim C9: two successive fetches of the same grid from the
base state produce the same TickerSet. -/
theorem refetch_is_deterministic_witness :
    (grab_tickers ((grab_tickers baseState (Except.ok [["tickers"], ["AAPL"]])).1)
        (Except.ok [["tickers"], ["AAPL"]])).2 = none ∧
    ((grab_tickers ((grab_tickers baseState (Except.ok [["tickers"], ["AAPL"]])).1)
        (Except.ok [["tickers"], ["AAPL"]])).1).tickers =
      ((grab_tickers baseState (Except.ok [["tickers"], ["AAPL"]])).1).tickers :=
  refetch_is_deterministic baseState _ [["tickers"], ["AAPL"]] (by decide)

end GrabTickers
